import Mathlib

/-!
Shallow embedding of `src/server.py`, a FastAPI payroll backend.

Modelling decisions:
* Python `float` fields are modelled as `ℚ` (the payroll formulas are plain
  arithmetic on decimal values); Python `int` as `ℤ`; `datetime` timestamps as
  an opaque `ℕ` tick.
* The MongoDB collections `db.employees` and `db.sector_data` are modelled as
  `List Employee` and `List SectorData`; `find_one({"id": x})` is first-match
  lookup, `update_one`/`delete_one` act on the first match, `insert_one`
  appends.
* `HTTPException(status_code, detail)` is an `HTTPError` value returned via
  `Except`; each route handler is a function from the store (plus request
  data and, where the code uses `uuid4()`/`utcnow()`, a fresh id and clock
  value passed explicitly) to a response together with the resulting store.
* Mongo's `.sort("date", -1)` string sort is modelled as sorting by
  lexicographic comparison of the date strings, descending.
-/

/-- `ADMIN_PASSWORD = "natdelmingo231"` (server.py line 29). -/
def ADMIN_PASSWORD : String := "natdelmingo231"

/-- The `Employee` pydantic model (server.py lines 32-43). -/
structure Employee where
  id : String
  full_name : String
  gross_salary : ℚ
  photo : Option String := none
  pix_key : Option String := none
  first_half_hours : ℚ := 0
  second_half_hours : ℚ := 0
  first_half_advance : ℚ := 0
  second_half_absences : ℤ := 0
  food_basket_value : ℚ := 50
  created_at : ℕ
deriving DecidableEq

/-- The `EmployeeCreate` request model (server.py lines 45-50). -/
structure EmployeeCreate where
  full_name : String
  gross_salary : ℚ
  password : String
  photo : Option String := none
  pix_key : Option String := none
deriving DecidableEq

/-- The `EmployeeUpdate` request model (server.py lines 52-55). -/
structure EmployeeUpdate where
  gross_salary : Option ℚ := none
  password : String
  pix_key : Option String := none
deriving DecidableEq

/-- The `PasswordValidation` request model (server.py lines 57-58). -/
structure PasswordValidation where
  password : String
deriving DecidableEq

/-- The `SectorData` model (server.py lines 60-65). -/
structure SectorData where
  id : String
  sector_name : String
  daily_quantity : ℚ
  date : String
  created_at : ℕ
deriving DecidableEq

/-- The `SectorUpdate` request model (server.py lines 67-70). -/
structure SectorUpdate where
  password : String
  daily_quantity : ℚ
  date : String
deriving DecidableEq

/-- The `EmployeeCalculation` request model (server.py lines 72-78). -/
structure EmployeeCalculation where
  employee_id : String
  first_half_hours : Option ℚ := none
  second_half_hours : Option ℚ := none
  first_half_advance : Option ℚ := none
  second_half_absences : Option ℤ := none
  food_basket_value : Option ℚ := none
deriving DecidableEq

/-- A BSON-ish field value, for the document view of a record. -/
inductive Val where
  | str : String → Val
  | num : ℚ → Val
  | intVal : ℤ → Val
  | optStr : Option String → Val
  | time : ℕ → Val
deriving DecidableEq

/-- `employee.dict()`: the document actually inserted by
`db.employees.insert_one(employee.dict())` (server.py line 97), as an ordered
field-name/value list.  The `Employee` model has exactly these eleven fields. -/
def Employee.dict (e : Employee) : List (String × Val) :=
  [("id", .str e.id),
   ("full_name", .str e.full_name),
   ("gross_salary", .num e.gross_salary),
   ("photo", .optStr e.photo),
   ("pix_key", .optStr e.pix_key),
   ("first_half_hours", .num e.first_half_hours),
   ("second_half_hours", .num e.second_half_hours),
   ("first_half_advance", .num e.first_half_advance),
   ("second_half_absences", .intVal e.second_half_absences),
   ("food_basket_value", .num e.food_basket_value),
   ("created_at", .time e.created_at)]

/-- An `HTTPException(status_code=..., detail=...)` response. -/
structure HTTPError where
  status : ℕ
  detail : String
deriving DecidableEq

/-- `HTTPException(status_code=403, detail="Senha incorreta")`. -/
def senhaIncorreta : HTTPError := ⟨403, "Senha incorreta"⟩

/-- `HTTPException(status_code=404, detail="Funcionário não encontrado")`. -/
def funcionarioNaoEncontrado : HTTPError := ⟨404, "Funcionário não encontrado"⟩

/-- `HTTPException(status_code=400, detail="Período inválido. ...")`. -/
def periodoInvalido : HTTPError := ⟨400, "Período inválido. Use 'first' ou 'second'"⟩

/-- `db.employees.find_one({"id": employee_id})`: first stored record with the
given id. -/
def findOne (store : List Employee) (eid : String) : Option Employee :=
  store.find? (fun e => e.id == eid)

/-- `db.employees.update_one({"id": eid}, {"$set": ...})`: rewrite the first
record whose id matches, applying `f` (the effect of the `$set` document). -/
def updateFirst (store : List Employee) (eid : String) (f : Employee → Employee) :
    List Employee :=
  match store with
  | [] => []
  | e :: rest => if e.id == eid then f e :: rest else e :: updateFirst rest eid f

/-- `db.employees.delete_one({"id": eid})`: remove the first matching record. -/
def deleteFirst (store : List Employee) (eid : String) : List Employee :=
  match store with
  | [] => []
  | e :: rest => if e.id == eid then rest else e :: deleteFirst rest eid

/-- `POST /api/employees` (server.py lines 87-98): password-gated creation.
The request dict minus its `password` key, with the model defaults
(`first_half_hours = 0`, ..., `food_basket_value = 50`) and the generated
`id`/`created_at`, becomes the stored `Employee`. -/
def create_employee (store : List Employee) (employee_data : EmployeeCreate)
    (newId : String) (now : ℕ) : Except HTTPError Employee × List Employee :=
  if employee_data.password ≠ ADMIN_PASSWORD then (.error senhaIncorreta, store)
  else
    let employee : Employee :=
      { id := newId
        full_name := employee_data.full_name
        gross_salary := employee_data.gross_salary
        photo := employee_data.photo
        pix_key := employee_data.pix_key
        first_half_hours := 0
        second_half_hours := 0
        first_half_advance := 0
        second_half_absences := 0
        food_basket_value := 50
        created_at := now }
    (.ok employee, store ++ [employee])

/-- `GET /api/employees/{employee_id}` (server.py lines 100-106). -/
def get_employee (store : List Employee) (eid : String) : Except HTTPError Employee :=
  match findOne store eid with
  | none => .error funcionarioNaoEncontrado
  | some emp => .ok emp

/-- `PUT /api/employees/{employee_id}/salary` (server.py lines 108-123). -/
def update_employee_salary (store : List Employee) (eid : String)
    (update_data : EmployeeUpdate) : Except HTTPError String × List Employee :=
  if update_data.password ≠ ADMIN_PASSWORD then (.error senhaIncorreta, store)
  else
    match findOne store eid with
    | none => (.error funcionarioNaoEncontrado, store)
    | some _ =>
        (.ok "Salário atualizado com sucesso",
         updateFirst store eid (fun e =>
           match update_data.gross_salary with
           | none => e
           | some s => { e with gross_salary := s }))

/-- `PUT /api/employees/{employee_id}/pix` (server.py lines 125-140). -/
def update_employee_pix (store : List Employee) (eid : String)
    (update_data : EmployeeUpdate) : Except HTTPError String × List Employee :=
  if update_data.password ≠ ADMIN_PASSWORD then (.error senhaIncorreta, store)
  else
    match findOne store eid with
    | none => (.error funcionarioNaoEncontrado, store)
    | some _ =>
        (.ok "Chave PIX atualizada com sucesso",
         updateFirst store eid (fun e =>
           match update_data.pix_key with
           | none => e
           | some k => { e with pix_key := some k }))

/-- `DELETE /api/employees/{employee_id}` (server.py lines 142-153). -/
def fire_employee (store : List Employee) (eid : String)
    (password_data : PasswordValidation) : Except HTTPError String × List Employee :=
  if password_data.password ≠ ADMIN_PASSWORD then (.error senhaIncorreta, store)
  else
    match findOne store eid with
    | none => (.error funcionarioNaoEncontrado, store)
    | some _ => (.ok "Funcionário demitido com sucesso", deleteFirst store eid)

/-- The `$set` document built in `update_employee_calculations`
(server.py lines 162-172): each field present in the request overwrites the
stored one, each absent field is left as it was. -/
def applyCalculations (calc_data : EmployeeCalculation) (e : Employee) : Employee :=
  { e with
    first_half_hours := calc_data.first_half_hours.getD e.first_half_hours
    second_half_hours := calc_data.second_half_hours.getD e.second_half_hours
    first_half_advance := calc_data.first_half_advance.getD e.first_half_advance
    second_half_absences := calc_data.second_half_absences.getD e.second_half_absences
    food_basket_value := calc_data.food_basket_value.getD e.food_basket_value }

/-- `PUT /api/employees/{employee_id}/calculations` (server.py lines 155-175).
Note: no password check. -/
def update_employee_calculations (store : List Employee) (eid : String)
    (calc_data : EmployeeCalculation) : Except HTTPError String × List Employee :=
  match findOne store eid with
  | none => (.error funcionarioNaoEncontrado, store)
  | some _ =>
      (.ok "Dados de cálculo atualizados com sucesso",
       updateFirst store eid (applyCalculations calc_data))

/-- The payroll breakdown returned by `calculate_payroll`. -/
structure PayrollResult where
  period : String
  gross_salary : ℚ
  hours_worked : ℚ
  advance_value : ℚ
  absences : ℤ
  discount_value : ℚ
  total_to_pay : ℚ
deriving DecidableEq

/-- `GET /api/employees/{employee_id}/payroll/{period}`
(server.py lines 177-223).  Read-only: the second component of the result is
the store, which the handler never writes (its only DB call is `find_one`). -/
def calculate_payroll (store : List Employee) (eid period : String) :
    Except HTTPError PayrollResult × List Employee :=
  match findOne store eid with
  | none => (.error funcionarioNaoEncontrado, store)
  | some emp =>
      if period = "first" then
        let base_amount := emp.gross_salary * (4/10)
        (.ok { period := "Primeira Quinzena"
               gross_salary := emp.gross_salary
               hours_worked := emp.first_half_hours
               advance_value := emp.first_half_advance
               absences := 0
               discount_value := 0
               total_to_pay := base_amount }, store)
      else if period = "second" then
        let base_amount := emp.gross_salary * (6/10)
        let daily_salary := emp.gross_salary / 30
        let absence_deduction :=
          (emp.second_half_absences : ℚ) * (daily_salary * 3 + emp.food_basket_value)
        (.ok { period := "Segunda Quinzena"
               gross_salary := emp.gross_salary
               hours_worked := emp.second_half_hours
               advance_value := 0
               absences := emp.second_half_absences
               discount_value := absence_deduction
               total_to_pay := max 0 (base_amount - absence_deduction) }, store)
      else (.error periodoInvalido, store)

/-- `POST /api/validate-password` (server.py lines 226-231).  Touches no
stored data. -/
def validate_password (password_data : PasswordValidation) : Except HTTPError String :=
  if password_data.password ≠ ADMIN_PASSWORD then .error senhaIncorreta
  else .ok "Senha válida"

/-- Lexicographic (code-point) comparison of character lists; the string order
under which Mongo sorts the `date` field. -/
def lexLe : List Char → List Char → Bool
  | [], _ => true
  | _ :: _, [] => false
  | a :: as, b :: bs =>
      if a.toNat < b.toNat then true
      else if b.toNat < a.toNat then false
      else lexLe as bs

/-- Lexicographic comparison of strings. -/
def strLe (a b : String) : Bool := lexLe a.data b.data

/-- Descending-by-`date` insertion of one entry into a sorted list. -/
def insertDesc (x : SectorData) : List SectorData → List SectorData
  | [] => [x]
  | y :: ys => if strLe y.date x.date then x :: y :: ys else y :: insertDesc x ys

/-- `.sort("date", -1)`: sort entries by `date` descending. -/
def sortByDateDesc : List SectorData → List SectorData
  | [] => []
  | x :: xs => insertDesc x (sortByDateDesc xs)

/-- `GET /api/sectors/{sector_name}/data` (server.py lines 233-237):
`db.sector_data.find({"sector_name": name}).sort("date", -1).to_list(100)`. -/
def get_sector_data (sstore : List SectorData) (sector_name : String) :
    List SectorData :=
  (sortByDateDesc (sstore.filter (fun d => d.sector_name == sector_name))).take 100

/-- `POST /api/sectors/{sector_name}/update` (server.py lines 239-253). -/
def update_sector_data (sstore : List SectorData) (sector_name : String)
    (update_data : SectorUpdate) (newId : String) (now : ℕ) :
    Except HTTPError String × List SectorData :=
  if update_data.password ≠ ADMIN_PASSWORD then (.error senhaIncorreta, sstore)
  else
    (.ok "Dados do setor atualizados com sucesso",
     sstore ++ [{ id := newId
                  sector_name := sector_name
                  daily_quantity := update_data.daily_quantity
                  date := update_data.date
                  created_at := now }])

/-- A concrete employee used by the witnesses. -/
def demoEmp : Employee :=
  { id := "e1"
    full_name := "Ana Lima"
    gross_salary := 3000
    photo := none
    pix_key := some "ana@pix"
    first_half_hours := 5
    second_half_hours := 7
    first_half_advance := 200
    second_half_absences := 2
    food_basket_value := 50
    created_at := 0 }

/-- C1: payroll for period `"first"` pays 40% of gross salary with zero
reported discount and zero reported absences, whatever the stored hours,
advance, or absence values are; hours and advance are echoed but never
subtracted. -/
theorem first_half_payroll (store : List Employee) (eid : String) (emp : Employee)
    (h : findOne store eid = some emp) :
    (calculate_payroll store eid "first").1 =
      .ok { period := "Primeira Quinzena"
            gross_salary := emp.gross_salary
            hours_worked := emp.first_half_hours
            advance_value := emp.first_half_advance
            absences := 0
            discount_value := 0
            total_to_pay := emp.gross_salary * (4/10) } := by
  simp [calculate_payroll, h]

theorem first_half_payroll_witness :
    (calculate_payroll [demoEmp] "e1" "first").1 =
      .ok { period := "Primeira Quinzena"
            gross_salary := demoEmp.gross_salary
            hours_worked := demoEmp.first_half_hours
            advance_value := demoEmp.first_half_advance
            absences := 0
            discount_value := 0
            total_to_pay := demoEmp.gross_salary * (4/10) } :=
  first_half_payroll [demoEmp] "e1" demoEmp rfl

/-- C2: payroll for period `"second"` pays
`max 0 (gross_salary * 0.6 - absences * (gross_salary / 30 * 3 + food_basket_value))`,
reports the full per-absence deduction times the absence count as
`discount_value`, and the payable amount is never negative. -/
theorem second_half_payroll (store : List Employee) (eid : String) (emp : Employee)
    (h : findOne store eid = some emp) :
    (calculate_payroll store eid "second").1 =
      .ok { period := "Segunda Quinzena"
            gross_salary := emp.gross_salary
            hours_worked := emp.second_half_hours
            advance_value := 0
            absences := emp.second_half_absences
            discount_value := (emp.second_half_absences : ℚ) *
              (emp.gross_salary / 30 * 3 + emp.food_basket_value)
            total_to_pay := max 0 (emp.gross_salary * (6/10) -
              (emp.second_half_absences : ℚ) *
                (emp.gross_salary / 30 * 3 + emp.food_basket_value)) } ∧
    (0 : ℚ) ≤ max 0 (emp.gross_salary * (6/10) -
      (emp.second_half_absences : ℚ) *
        (emp.gross_salary / 30 * 3 + emp.food_basket_value)) := by
  exact ⟨by simp [calculate_payroll, h], le_max_left 0 _⟩

theorem second_half_payroll_witness :
    ∃ r, (calculate_payroll [demoEmp] "e1" "second").1 = .ok r ∧
      r.discount_value = 700 ∧ r.total_to_pay = 1100 ∧ (0 : ℚ) ≤ r.total_to_pay := by
  have h := second_half_payroll [demoEmp] "e1" demoEmp rfl
  refine ⟨_, h.1, ?_, ?_, ?_⟩
  · norm_num [demoEmp]
  · show max 0 (demoEmp.gross_salary * (6/10) -
      (demoEmp.second_half_absences : ℚ) *
        (demoEmp.gross_salary / 30 * 3 + demoEmp.food_basket_value)) = 1100
    rw [show (demoEmp.gross_salary * (6/10) -
      (demoEmp.second_half_absences : ℚ) *
        (demoEmp.gross_salary / 30 * 3 + demoEmp.food_basket_value)) = 1100 by
        norm_num [demoEmp]]
    norm_num
  · exact h.2

/-- An employee with a negative stored salary and no absences, as the data
model explicitly admits (no range validation). -/
def empNeg : Employee :=
  { id := "n1"
    full_name := "Nilo"
    gross_salary := -100
    created_at := 0 }

/-- C3 counterexample: with `second_half_absences = 0` but a negative stored
`gross_salary` (which the store accepts), the `"second"`-period payable is the
clamped value `0`, not `gross_salary * 0.6`; so the claim as stated, covering
every storable salary, is false. -/
theorem second_half_zero_absences_cex :
    ∃ r, (calculate_payroll [empNeg] "n1" "second").1 = .ok r ∧
      r.total_to_pay ≠ empNeg.gross_salary * (6/10) := by
  refine ⟨_, rfl, ?_⟩
  show max 0 (empNeg.gross_salary * (6/10) -
      (empNeg.second_half_absences : ℚ) *
        (empNeg.gross_salary / 30 * 3 + empNeg.food_basket_value)) ≠
    empNeg.gross_salary * (6/10)
  rw [show (empNeg.gross_salary * (6/10) -
      (empNeg.second_half_absences : ℚ) *
        (empNeg.gross_salary / 30 * 3 + empNeg.food_basket_value)) = -60 by
      norm_num [empNeg]]
  rw [show empNeg.gross_salary * (6/10) = -60 by norm_num [empNeg]]
  rw [show max (0 : ℚ) (-60) = 0 by
    rw [max_eq_left]
    norm_num]
  norm_num

/-- C3 (amended): for a stored employee with `second_half_absences = 0` and a
nonnegative `gross_salary`, the `"second"`-period payroll reports zero
discount and pays exactly `gross_salary * 0.6`. -/
theorem second_half_zero_absences (store : List Employee) (eid : String)
    (emp : Employee) (h : findOne store eid = some emp)
    (habs : emp.second_half_absences = 0) (hsal : 0 ≤ emp.gross_salary) :
    ∃ r, (calculate_payroll store eid "second").1 = .ok r ∧
      r.discount_value = 0 ∧ r.total_to_pay = emp.gross_salary * (6/10) := by
  refine ⟨{ period := "Segunda Quinzena"
            gross_salary := emp.gross_salary
            hours_worked := emp.second_half_hours
            advance_value := 0
            absences := emp.second_half_absences
            discount_value := (emp.second_half_absences : ℚ) *
              (emp.gross_salary / 30 * 3 + emp.food_basket_value)
            total_to_pay := max 0 (emp.gross_salary * (6/10) -
              (emp.second_half_absences : ℚ) *
                (emp.gross_salary / 30 * 3 + emp.food_basket_value)) },
    by simp [calculate_payroll, h], ?_, ?_⟩
  · show (emp.second_half_absences : ℚ) *
      (emp.gross_salary / 30 * 3 + emp.food_basket_value) = 0
    rw [habs]
    norm_num
  · show max 0 (emp.gross_salary * (6/10) -
      (emp.second_half_absences : ℚ) *
        (emp.gross_salary / 30 * 3 + emp.food_basket_value)) =
      emp.gross_salary * (6/10)
    rw [habs]
    push_cast
    rw [zero_mul, sub_zero, max_eq_right]
    exact mul_nonneg hsal (by norm_num)

/-- `demoEmp` with its absences cleared, for the C3 witness. -/
def demoEmp0 : Employee := { demoEmp with second_half_absences := 0 }

theorem second_half_zero_absences_witness :
    ∃ r, (calculate_payroll [demoEmp0] "e1" "second").1 = .ok r ∧
      r.discount_value = 0 ∧ r.total_to_pay = demoEmp0.gross_salary * (6/10) :=
  second_half_zero_absences [demoEmp0] "e1" demoEmp0 rfl rfl
    (by norm_num [demoEmp0, demoEmp])

/-- C4: computing payroll writes nothing (the store it returns is the store it
was given), so a second computation on the resulting store, for the same id
and period, returns exactly the same answer. -/
theorem calculate_payroll_readonly_idempotent (store : List Employee)
    (eid period : String) :
    (calculate_payroll store eid period).2 = store ∧
    calculate_payroll (calculate_payroll store eid period).2 eid period =
      calculate_payroll store eid period := by
  have h2 : (calculate_payroll store eid period).2 = store := by
    cases hf : findOne store eid with
    | none => simp [calculate_payroll, hf]
    | some emp =>
        simp only [calculate_payroll, hf]
        split_ifs <;> rfl
  exact ⟨h2, by rw [h2]⟩

/-- C5: every password-gated operation, handed a password other than
`ADMIN_PASSWORD`, fails with the 403 "Senha incorreta" error and leaves the
relevant store exactly as it was, whether or not the referenced id exists. -/
theorem wrong_password_rejected (estore : List Employee) (sstore : List SectorData)
    (pw : String) (hpw : pw ≠ ADMIN_PASSWORD)
    (fn : String) (gs : ℚ) (ph pk : Option String) (newId : String) (now : ℕ)
    (eid : String) (g : Option ℚ) (p : Option String)
    (sname : String) (dq : ℚ) (dt : String) :
    create_employee estore
        { full_name := fn, gross_salary := gs, password := pw,
          photo := ph, pix_key := pk } newId now = (.error senhaIncorreta, estore) ∧
    update_employee_salary estore eid
        { gross_salary := g, password := pw, pix_key := p } =
      (.error senhaIncorreta, estore) ∧
    update_employee_pix estore eid
        { gross_salary := g, password := pw, pix_key := p } =
      (.error senhaIncorreta, estore) ∧
    fire_employee estore eid { password := pw } = (.error senhaIncorreta, estore) ∧
    update_sector_data sstore sname
        { password := pw, daily_quantity := dq, date := dt } newId now =
      (.error senhaIncorreta, sstore) ∧
    validate_password { password := pw } = .error senhaIncorreta := by
  refine ⟨?_, ?_, ?_, ?_, ?_, ?_⟩ <;>
    simp [create_employee, update_employee_salary, update_employee_pix,
      fire_employee, update_sector_data, validate_password, hpw]

theorem wrong_password_rejected_witness :
    create_employee [demoEmp]
        { full_name := "Bia", gross_salary := 1000, password := "wrong",
          photo := none, pix_key := none } "id9" 1 =
      (.error senhaIncorreta, [demoEmp]) ∧
    update_employee_salary [demoEmp] "e1"
        { gross_salary := none, password := "wrong", pix_key := none } =
      (.error senhaIncorreta, [demoEmp]) ∧
    update_employee_pix [demoEmp] "e1"
        { gross_salary := none, password := "wrong", pix_key := none } =
      (.error senhaIncorreta, [demoEmp]) ∧
    fire_employee [demoEmp] "e1" { password := "wrong" } =
      (.error senhaIncorreta, [demoEmp]) ∧
    update_sector_data [] "Setor 1"
        { password := "wrong", daily_quantity := 5, date := "2024-01-01" } "id9" 1 =
      (.error senhaIncorreta, []) ∧
    validate_password { password := "wrong" } = .error senhaIncorreta :=
  wrong_password_rejected [demoEmp] [] "wrong" (by decide) "Bia" 1000 none none
    "id9" 1 "e1" none none "Setor 1" 5 "2024-01-01"

/-- `update_one` with an empty `$set` leaves the store unchanged. -/
theorem updateFirst_id (store : List Employee) (eid : String) :
    updateFirst store eid (fun e => e) = store := by
  induction store with
  | nil => rfl
  | cons e rest ih =>
      by_cases h : (e.id == eid) <;> simp [updateFirst, h, ih]

/-- Lookup after a first-match rewrite that preserves ids: the found record is
the rewritten one. -/
theorem findOne_updateFirst (store : List Employee) (eid : String)
    (f : Employee → Employee) (hf : ∀ e, (f e).id = e.id) :
    findOne (updateFirst store eid f) eid = (findOne store eid).map f := by
  induction store with
  | nil => rfl
  | cons e rest ih =>
      by_cases h : (e.id == eid)
      · simp [updateFirst, findOne, h, hf]
      · simp only [updateFirst, findOne, if_neg h] at ih ⊢
        simp [List.find?, h, ih]

/-- C6: with the correct password and an existing id, a salary update carrying
no new salary (resp. a PIX update carrying no new key) succeeds and leaves the
store untouched, while a supplied value overwrites exactly that one field of
the stored record. -/
theorem update_salary_pix (store : List Employee) (eid : String) (emp : Employee)
    (h : findOne store eid = some emp) (v : ℚ) (k : String)
    (g : Option ℚ) (p : Option String) :
    update_employee_salary store eid
        { gross_salary := none, password := ADMIN_PASSWORD, pix_key := p } =
      (.ok "Salário atualizado com sucesso", store) ∧
    (update_employee_salary store eid
        { gross_salary := some v, password := ADMIN_PASSWORD, pix_key := p }).1 =
      .ok "Salário atualizado com sucesso" ∧
    findOne (update_employee_salary store eid
        { gross_salary := some v, password := ADMIN_PASSWORD, pix_key := p }).2 eid =
      some { emp with gross_salary := v } ∧
    update_employee_pix store eid
        { gross_salary := g, password := ADMIN_PASSWORD, pix_key := none } =
      (.ok "Chave PIX atualizada com sucesso", store) ∧
    (update_employee_pix store eid
        { gross_salary := g, password := ADMIN_PASSWORD, pix_key := some k }).1 =
      .ok "Chave PIX atualizada com sucesso" ∧
    findOne (update_employee_pix store eid
        { gross_salary := g, password := ADMIN_PASSWORD, pix_key := some k }).2 eid =
      some { emp with pix_key := some k } := by
  refine ⟨?_, ?_, ?_, ?_, ?_, ?_⟩
  · simp [update_employee_salary, h, updateFirst_id]
  · simp [update_employee_salary, h]
  · simp only [update_employee_salary, ne_eq, not_true_eq_false, if_false, h]
    rw [findOne_updateFirst store eid (fun e => { e with gross_salary := v })
      (fun e => rfl), h]
    rfl
  · simp [update_employee_pix, h, updateFirst_id]
  · simp [update_employee_pix, h]
  · simp only [update_employee_pix, ne_eq, not_true_eq_false, if_false, h]
    rw [findOne_updateFirst store eid (fun e => { e with pix_key := some k })
      (fun e => rfl), h]
    rfl

theorem update_salary_pix_witness :
    update_employee_salary [demoEmp] "e1"
        { gross_salary := none, password := ADMIN_PASSWORD, pix_key := none } =
      (.ok "Salário atualizado com sucesso", [demoEmp]) ∧
    (update_employee_salary [demoEmp] "e1"
        { gross_salary := some 4000, password := ADMIN_PASSWORD, pix_key := none }).1 =
      .ok "Salário atualizado com sucesso" ∧
    findOne (update_employee_salary [demoEmp] "e1"
        { gross_salary := some 4000, password := ADMIN_PASSWORD, pix_key := none }).2 "e1" =
      some { demoEmp with gross_salary := 4000 } ∧
    update_employee_pix [demoEmp] "e1"
        { gross_salary := none, password := ADMIN_PASSWORD, pix_key := none } =
      (.ok "Chave PIX atualizada com sucesso", [demoEmp]) ∧
    (update_employee_pix [demoEmp] "e1"
        { gross_salary := none, password := ADMIN_PASSWORD, pix_key := some "b@pix" }).1 =
      .ok "Chave PIX atualizada com sucesso" ∧
    findOne (update_employee_pix [demoEmp] "e1"
        { gross_salary := none, password := ADMIN_PASSWORD, pix_key := some "b@pix" }).2 "e1" =
      some { demoEmp with pix_key := some "b@pix" } :=
  update_salary_pix [demoEmp] "e1" demoEmp rfl 4000 "b@pix" none none

/-- C7: the calculations update takes no password; on an existing id it
succeeds, each supplied field of the five overwrites the stored one, each
absent field keeps its prior value, and the identity/name/salary/photo/PIX/
creation-time fields are untouched. -/
theorem update_calculations_subset_frame (store : List Employee) (eid : String)
    (emp : Employee) (calc_data : EmployeeCalculation)
    (h : findOne store eid = some emp) :
    (update_employee_calculations store eid calc_data).1 =
      .ok "Dados de cálculo atualizados com sucesso" ∧
    findOne (update_employee_calculations store eid calc_data).2 eid =
      some (applyCalculations calc_data emp) ∧
    (applyCalculations calc_data emp).id = emp.id ∧
    (applyCalculations calc_data emp).full_name = emp.full_name ∧
    (applyCalculations calc_data emp).gross_salary = emp.gross_salary ∧
    (applyCalculations calc_data emp).photo = emp.photo ∧
    (applyCalculations calc_data emp).pix_key = emp.pix_key ∧
    (applyCalculations calc_data emp).created_at = emp.created_at ∧
    (applyCalculations calc_data emp).first_half_hours =
      calc_data.first_half_hours.getD emp.first_half_hours ∧
    (applyCalculations calc_data emp).second_half_hours =
      calc_data.second_half_hours.getD emp.second_half_hours ∧
    (applyCalculations calc_data emp).first_half_advance =
      calc_data.first_half_advance.getD emp.first_half_advance ∧
    (applyCalculations calc_data emp).second_half_absences =
      calc_data.second_half_absences.getD emp.second_half_absences ∧
    (applyCalculations calc_data emp).food_basket_value =
      calc_data.food_basket_value.getD emp.food_basket_value := by
  refine ⟨?_, ?_, rfl, rfl, rfl, rfl, rfl, rfl, rfl, rfl, rfl, rfl, rfl⟩
  · simp [update_employee_calculations, h]
  · simp only [update_employee_calculations, h]
    rw [findOne_updateFirst store eid (applyCalculations calc_data) (fun e => rfl), h]
    rfl

/-- A partial calculations payload (two of five fields supplied) for the C7
witness. -/
def demoCalc : EmployeeCalculation :=
  { employee_id := "e1"
    first_half_hours := some 8
    food_basket_value := some 60 }

theorem update_calculations_subset_frame_witness :
    (update_employee_calculations [demoEmp] "e1" demoCalc).1 =
      .ok "Dados de cálculo atualizados com sucesso" ∧
    findOne (update_employee_calculations [demoEmp] "e1" demoCalc).2 "e1" =
      some (applyCalculations demoCalc demoEmp) ∧
    (applyCalculations demoCalc demoEmp).id = demoEmp.id ∧
    (applyCalculations demoCalc demoEmp).full_name = demoEmp.full_name ∧
    (applyCalculations demoCalc demoEmp).gross_salary = demoEmp.gross_salary ∧
    (applyCalculations demoCalc demoEmp).photo = demoEmp.photo ∧
    (applyCalculations demoCalc demoEmp).pix_key = demoEmp.pix_key ∧
    (applyCalculations demoCalc demoEmp).created_at = demoEmp.created_at ∧
    (applyCalculations demoCalc demoEmp).first_half_hours =
      demoCalc.first_half_hours.getD demoEmp.first_half_hours ∧
    (applyCalculations demoCalc demoEmp).second_half_hours =
      demoCalc.second_half_hours.getD demoEmp.second_half_hours ∧
    (applyCalculations demoCalc demoEmp).first_half_advance =
      demoCalc.first_half_advance.getD demoEmp.first_half_advance ∧
    (applyCalculations demoCalc demoEmp).second_half_absences =
      demoCalc.second_half_absences.getD demoEmp.second_half_absences ∧
    (applyCalculations demoCalc demoEmp).food_basket_value =
      demoCalc.food_basket_value.getD demoEmp.food_basket_value :=
  update_calculations_subset_frame [demoEmp] "e1" demoEmp demoCalc rfl

/-- Totality of the lexicographic comparison. -/
theorem lexLe_total : ∀ (a b : List Char), lexLe a b = true ∨ lexLe b a = true
  | [], _ => Or.inl rfl
  | _ :: _, [] => Or.inr rfl
  | x :: xs, y :: ys => by
      by_cases h1 : x.toNat < y.toNat
      · exact Or.inl (by simp [lexLe, h1])
      · by_cases h2 : y.toNat < x.toNat
        · exact Or.inr (by simp [lexLe, h2])
        · rcases lexLe_total xs ys with h | h
          · exact Or.inl (by simp [lexLe, h1, h2, h])
          · exact Or.inr (by simp [lexLe, h2, h1, h])

/-- Transitivity of the lexicographic comparison. -/
theorem lexLe_trans : ∀ (a b c : List Char),
    lexLe a b = true → lexLe b c = true → lexLe a c = true
  | [], _, _, _, _ => rfl
  | _ :: _, [], _, hab, _ => by simp [lexLe] at hab
  | _ :: _, _ :: _, [], _, hbc => by simp [lexLe] at hbc
  | x :: xs, y :: ys, z :: zs, hab, hbc => by
      simp only [lexLe] at hab hbc
      by_cases hxy : x.toNat < y.toNat
      · by_cases hyz : y.toNat < z.toNat
        · simp [lexLe, show x.toNat < z.toNat by omega]
        · by_cases hzy : z.toNat < y.toNat
          · simp [hyz, hzy] at hbc
          · simp [lexLe, show x.toNat < z.toNat by omega]
      · by_cases hyx : y.toNat < x.toNat
        · simp [hxy, hyx] at hab
        · simp only [if_neg hxy, if_neg hyx] at hab
          by_cases hyz : y.toNat < z.toNat
          · simp [lexLe, show x.toNat < z.toNat by omega]
          · by_cases hzy : z.toNat < y.toNat
            · simp [hyz, hzy] at hbc
            · simp only [if_neg hyz, if_neg hzy] at hbc
              have hrec := lexLe_trans xs ys zs hab hbc
              simp [lexLe, show ¬ x.toNat < z.toNat by omega,
                show ¬ z.toNat < x.toNat by omega, hrec]

/-- Totality of the string comparison. -/
theorem strLe_total (a b : String) : strLe a b = true ∨ strLe b a = true :=
  lexLe_total a.data b.data

/-- Transitivity of the string comparison. -/
theorem strLe_trans {a b c : String} (hab : strLe a b = true)
    (hbc : strLe b c = true) : strLe a c = true :=
  lexLe_trans a.data b.data c.data hab hbc

/-- Inserting preserves the multiset of entries. -/
theorem insertDesc_perm (x : SectorData) (l : List SectorData) :
    (insertDesc x l).Perm (x :: l) := by
  induction l with
  | nil => exact List.Perm.refl _
  | cons y ys ih =>
      by_cases h : strLe y.date x.date
      · simp [insertDesc, h]
      · simp only [insertDesc, if_neg h]
        exact (ih.cons y).trans (List.Perm.swap x y ys)

/-- Inserting into a list sorted by `date` descending keeps it sorted. -/
theorem insertDesc_sorted (x : SectorData) (l : List SectorData)
    (hl : List.Pairwise (fun a b => strLe b.date a.date = true) l) :
    List.Pairwise (fun a b => strLe b.date a.date = true) (insertDesc x l) := by
  induction l with
  | nil => simp [insertDesc]
  | cons y ys ih =>
      rcases List.pairwise_cons.mp hl with ⟨hy, hys⟩
      by_cases h : strLe y.date x.date
      · simp only [insertDesc, if_pos h]
        refine List.pairwise_cons.mpr ⟨?_, hl⟩
        intro b hb
        rcases List.mem_cons.mp hb with rfl | hb2
        · exact h
        · exact strLe_trans (hy b hb2) h
      · simp only [insertDesc, if_neg h]
        refine List.pairwise_cons.mpr ⟨?_, ih hys⟩
        intro b hb
        have hmem := (insertDesc_perm x ys).mem_iff.mp hb
        rcases List.mem_cons.mp hmem with rfl | hb2
        · rcases strLe_total b.date y.date with ht | ht
          · exact ht
          · exact absurd ht h
        · exact hy b hb2

/-- The sort is a permutation of its input. -/
theorem sortByDateDesc_perm (l : List SectorData) : (sortByDateDesc l).Perm l := by
  induction l with
  | nil => exact List.Perm.refl _
  | cons x xs ih => exact (insertDesc_perm x (sortByDateDesc xs)).trans (ih.cons x)

/-- The sort output is sorted by `date` descending. -/
theorem sortByDateDesc_sorted (l : List SectorData) :
    List.Pairwise (fun a b => strLe b.date a.date = true) (sortByDateDesc l) := by
  induction l with
  | nil => exact List.Pairwise.nil
  | cons x xs ih => exact insertDesc_sorted x (sortByDateDesc xs) ih

/-- C8: listing a sector returns only entries whose `sector_name` matches,
at most 100 of them, sorted by `date` descending in the lexicographic string
order; whenever at most 100 entries match, the result is exactly the matching
entries; and two "Setor 1" entries dated "2024-01-10" and "2024-01-05" come
back with "2024-01-10" first under either insertion order. -/
theorem get_sector_data_spec (sstore : List SectorData) (name : String) :
    (∀ d ∈ get_sector_data sstore name, d.sector_name = name) ∧
    (get_sector_data sstore name).length ≤ 100 ∧
    List.Pairwise (fun a b => strLe b.date a.date = true)
      (get_sector_data sstore name) ∧
    ((sstore.filter (fun d => d.sector_name == name)).length ≤ 100 →
      (get_sector_data sstore name).Perm
        (sstore.filter (fun d => d.sector_name == name))) ∧
    (∀ x y : SectorData, x.sector_name = "Setor 1" → y.sector_name = "Setor 1" →
      x.date = "2024-01-10" → y.date = "2024-01-05" →
      (get_sector_data [x, y] "Setor 1").map SectorData.date =
        ["2024-01-10", "2024-01-05"] ∧
      (get_sector_data [y, x] "Setor 1").map SectorData.date =
        ["2024-01-10", "2024-01-05"]) := by
  refine ⟨?_, ?_, ?_, ?_, ?_⟩
  · intro d hd
    have h1 : d ∈ sortByDateDesc (sstore.filter (fun d => d.sector_name == name)) :=
      List.take_subset _ _ hd
    have h2 : d ∈ sstore.filter (fun d => d.sector_name == name) :=
      (sortByDateDesc_perm _).mem_iff.mp h1
    simpa using (List.mem_filter.mp h2).2
  · unfold get_sector_data
    rw [List.length_take]
    exact min_le_left _ _
  · exact (sortByDateDesc_sorted _).take
  · intro hlen
    have hperm := sortByDateDesc_perm (sstore.filter (fun d => d.sector_name == name))
    have hlen2 :
        (sortByDateDesc (sstore.filter (fun d => d.sector_name == name))).length ≤
          100 := by
      rw [hperm.length_eq]
      exact hlen
    unfold get_sector_data
    rw [List.take_of_length_le hlen2]
    exact hperm
  · intro x y hx hy hdx hdy
    have hlt : strLe "2024-01-05" "2024-01-10" = true := by decide
    have hgt : strLe "2024-01-10" "2024-01-05" = false := by decide
    constructor
    · simp [get_sector_data, sortByDateDesc, insertDesc, hx, hy, hdx, hdy, hlt, hgt]
    · simp [get_sector_data, sortByDateDesc, insertDesc, hx, hy, hdx, hdy, hlt, hgt]

/-- Concrete sector entries for the C8 witness. -/
def demoSec1 : SectorData :=
  { id := "s1", sector_name := "Setor 1", daily_quantity := 5,
    date := "2024-01-05", created_at := 0 }

/-- Concrete sector entries for the C8 witness. -/
def demoSec2 : SectorData :=
  { id := "s2", sector_name := "Setor 1", daily_quantity := 7,
    date := "2024-01-10", created_at := 0 }

theorem get_sector_data_spec_witness :
    (get_sector_data [demoSec1, demoSec2] "Setor 1").Perm
      ([demoSec1, demoSec2].filter (fun d => d.sector_name == "Setor 1")) ∧
    (get_sector_data [demoSec2, demoSec1] "Setor 1").map SectorData.date =
      ["2024-01-10", "2024-01-05"] ∧
    (get_sector_data [demoSec1, demoSec2] "Setor 1").map SectorData.date =
      ["2024-01-10", "2024-01-05"] := by
  have h5 := (get_sector_data_spec [demoSec1, demoSec2] "Setor 1").2.2.2.2
    demoSec2 demoSec1 rfl rfl rfl rfl
  exact ⟨(get_sector_data_spec [demoSec1, demoSec2] "Setor 1").2.2.2.1 (by decide),
    h5.1, h5.2⟩

/-- C9: with the password gate passed (where one exists), every
employee-id-keyed operation fails with the 404 error exactly when no stored
record has that id; payroll on an existing id fails with the 400 error exactly
when the period is neither "first" nor "second"; and the store is unchanged on
those failures. -/
theorem notfound_badperiod_spec (store : List Employee) (eid : String)
    (g : Option ℚ) (p : Option String) (period : String) :
    ((update_employee_salary store eid
        { gross_salary := g, password := ADMIN_PASSWORD, pix_key := p }).1 =
      .error funcionarioNaoEncontrado ↔ findOne store eid = none) ∧
    ((update_employee_pix store eid
        { gross_salary := g, password := ADMIN_PASSWORD, pix_key := p }).1 =
      .error funcionarioNaoEncontrado ↔ findOne store eid = none) ∧
    ((fire_employee store eid { password := ADMIN_PASSWORD }).1 =
      .error funcionarioNaoEncontrado ↔ findOne store eid = none) ∧
    (∀ cd : EmployeeCalculation,
      (update_employee_calculations store eid cd).1 =
        .error funcionarioNaoEncontrado ↔ findOne store eid = none) ∧
    (get_employee store eid = .error funcionarioNaoEncontrado ↔
      findOne store eid = none) ∧
    ((calculate_payroll store eid period).1 = .error funcionarioNaoEncontrado ↔
      findOne store eid = none) ∧
    (findOne store eid ≠ none →
      ((calculate_payroll store eid period).1 = .error periodoInvalido ↔
        (period ≠ "first" ∧ period ≠ "second"))) ∧
    (findOne store eid = none →
      (update_employee_salary store eid
        { gross_salary := g, password := ADMIN_PASSWORD, pix_key := p }).2 = store ∧
      (update_employee_pix store eid
        { gross_salary := g, password := ADMIN_PASSWORD, pix_key := p }).2 = store ∧
      (fire_employee store eid { password := ADMIN_PASSWORD }).2 = store ∧
      (∀ cd : EmployeeCalculation,
        (update_employee_calculations store eid cd).2 = store)) ∧
    (calculate_payroll store eid period).2 = store := by
  cases hf : findOne store eid with
  | none =>
      refine ⟨?_, ?_, ?_, ?_, ?_, ?_, ?_, ?_, ?_⟩
      · simp [update_employee_salary, hf]
      · simp [update_employee_pix, hf]
      · simp [fire_employee, hf]
      · intro cd
        simp [update_employee_calculations, hf]
      · simp [get_employee, hf]
      · simp [calculate_payroll, hf]
      · simp [hf]
      · intro _
        refine ⟨?_, ?_, ?_, ?_⟩
        · simp [update_employee_salary, hf]
        · simp [update_employee_pix, hf]
        · simp [fire_employee, hf]
        · intro cd
          simp [update_employee_calculations, hf]
      · simp [calculate_payroll, hf]
  | some emp =>
      refine ⟨?_, ?_, ?_, ?_, ?_, ?_, ?_, ?_, ?_⟩
      · simp [update_employee_salary, hf]
      · simp [update_employee_pix, hf]
      · simp [fire_employee, hf]
      · intro cd
        simp [update_employee_calculations, hf]
      · simp [get_employee, hf]
      · simp only [calculate_payroll, hf]
        split_ifs <;>
          simp [periodoInvalido, funcionarioNaoEncontrado]
      · intro _
        by_cases hp1 : period = "first"
        · simp [calculate_payroll, hf, hp1]
        · by_cases hp2 : period = "second"
          · simp [calculate_payroll, hf, hp1, hp2]
          · simp [calculate_payroll, hf, hp1, hp2]
      · simp [hf]
      · simp only [calculate_payroll, hf]
        split_ifs <;> rfl

theorem notfound_badperiod_spec_witness :
    (fire_employee [demoEmp] "zz" { password := ADMIN_PASSWORD }).1 =
      .error funcionarioNaoEncontrado ∧
    (calculate_payroll [demoEmp] "e1" "third").1 = .error periodoInvalido := by
  constructor
  · exact (notfound_badperiod_spec [demoEmp] "zz" none none "third").2.2.1.mpr rfl
  · have hsome : findOne [demoEmp] "e1" = some demoEmp := rfl
    refine ((notfound_badperiod_spec [demoEmp] "e1" none none
      "third").2.2.2.2.2.2.1 ?_).mpr (by decide)
    rw [hsome]
    exact Option.some_ne_none demoEmp

/-- The create request used by the C10 witness. -/
def demoCreate : EmployeeCreate :=
  { full_name := "Caio Reis"
    gross_salary := 2500
    password := ADMIN_PASSWORD
    photo := none
    pix_key := some "c@pix" }

/-- C10: with the correct password, creation appends exactly one record, built
only from the four payload fields plus the generated id and timestamp and the
model defaults (`food_basket_value = 50`); its persisted document carries
exactly the eleven `Employee` field names and in particular no `password`
key. -/
theorem create_employee_spec (store : List Employee) (data : EmployeeCreate)
    (newId : String) (now : ℕ) (hpw : data.password = ADMIN_PASSWORD) :
    ∃ emp : Employee,
      create_employee store data newId now = (.ok emp, store ++ [emp]) ∧
      emp = { id := newId, full_name := data.full_name,
              gross_salary := data.gross_salary, photo := data.photo,
              pix_key := data.pix_key, first_half_hours := 0,
              second_half_hours := 0, first_half_advance := 0,
              second_half_absences := 0, food_basket_value := 50,
              created_at := now } ∧
      emp.dict.map Prod.fst =
        ["id", "full_name", "gross_salary", "photo", "pix_key",
         "first_half_hours", "second_half_hours", "first_half_advance",
         "second_half_absences", "food_basket_value", "created_at"] ∧
      "password" ∉ emp.dict.map Prod.fst ∧
      emp.food_basket_value = 50 ∧ emp.id = newId ∧ emp.created_at = now := by
  refine ⟨{ id := newId, full_name := data.full_name,
            gross_salary := data.gross_salary, photo := data.photo,
            pix_key := data.pix_key, first_half_hours := 0,
            second_half_hours := 0, first_half_advance := 0,
            second_half_absences := 0, food_basket_value := 50,
            created_at := now }, ?_, rfl, rfl, ?_, rfl, rfl, rfl⟩
  · simp [create_employee, hpw]
  · intro hmem
    simp [Employee.dict] at hmem

theorem create_employee_spec_witness :
    ∃ emp : Employee,
      create_employee [] demoCreate "id7" 42 = (.ok emp, [] ++ [emp]) ∧
      emp = { id := "id7", full_name := demoCreate.full_name,
              gross_salary := demoCreate.gross_salary, photo := demoCreate.photo,
              pix_key := demoCreate.pix_key, first_half_hours := 0,
              second_half_hours := 0, first_half_advance := 0,
              second_half_absences := 0, food_basket_value := 50,
              created_at := 42 } ∧
      emp.dict.map Prod.fst =
        ["id", "full_name", "gross_salary", "photo", "pix_key",
         "first_half_hours", "second_half_hours", "first_half_advance",
         "second_half_absences", "food_basket_value", "created_at"] ∧
      "password" ∉ emp.dict.map Prod.fst ∧
      emp.food_basket_value = 50 ∧ emp.id = "id7" ∧ emp.created_at = 42 :=
  create_employee_spec [] demoCreate "id7" 42 rfl
